import Mathlib

/-!
Shallow embedding of the rookie_text2data database-schema layer:
type normalization per vendor inspector, the schema-to-DSL encoder,
the engine-cache key and lifecycle, the session-setup statements of
`execute_sql`, and the vendor version-string parsers.

All Python string operations are modelled over `List Char` (ASCII), with
`String` wrappers matching the source functions.
-/

namespace Text2Data

/-- Python whitespace characters (`str.strip`, regex `\s`, ASCII range). -/
def pyIsSpace (c : Char) : Bool :=
  c = ' ' || c = '\t' || c = '\n' || c = '\r' || c = Char.ofNat 11 || c = Char.ofNat 12

/-- Python `str.upper` on ASCII text. -/
def pyUpper (s : List Char) : List Char := s.map Char.toUpper

/-- Python `str.lower` on ASCII text. -/
def pyLower (s : List Char) : List Char := s.map Char.toLower

/-- Python `str.strip()`: drop leading and trailing whitespace. -/
def pyStrip (s : List Char) : List Char :=
  ((s.dropWhile pyIsSpace).reverse.dropWhile pyIsSpace).reverse

/-- Python `s.split('(')[0]`: the prefix before the first opening parenthesis. -/
def beforeParen : List Char → List Char
  | [] => []
  | c :: cs => if c = '(' then [] else c :: beforeParen cs

/-- Python dict lookup `m.get(k)` for a dict built from an association list. -/
def lookupMap {β : Type} : List (String × β) → String → Option β
  | [], _ => none
  | (k', v) :: rest, k => if k = k' then some v else lookupMap rest k

/-- Python truthiness of an `Optional[str]`: `None` and `""` are falsy. -/
def pyTruthyStrOpt : Option String → Bool
  | none => false
  | some s => !(s == "")

/-! ## Vendor type normalization (inspectors/dm.py, gaussdb.py, kingbase.py) -/

namespace DMInspector

/-- The `type_map` dict of `DMInspector.normalize_type`. -/
def type_map : List (String × String) :=
  [("NUMBER", "NUMERIC"), ("NUMERIC", "NUMERIC"), ("DECIMAL", "DECIMAL"),
   ("INTEGER", "INTEGER"), ("INT", "INTEGER"), ("BIGINT", "BIGINT"),
   ("SMALLINT", "SMALLINT"), ("TINYINT", "TINYINT"), ("FLOAT", "FLOAT"),
   ("DOUBLE", "DOUBLE"), ("REAL", "FLOAT"),
   ("VARCHAR", "VARCHAR"), ("VARCHAR2", "VARCHAR"), ("CHAR", "CHAR"),
   ("CHARACTER", "CHAR"), ("TEXT", "TEXT"), ("CLOB", "TEXT"),
   ("NCHAR", "NCHAR"), ("NVARCHAR", "NVARCHAR"), ("NVARCHAR2", "NVARCHAR"),
   ("DATE", "DATE"), ("TIME", "TIME"), ("TIMESTAMP", "TIMESTAMP"),
   ("DATETIME", "DATETIME"),
   ("BLOB", "BLOB"), ("BINARY", "BINARY"), ("VARBINARY", "VARBINARY"),
   ("IMAGE", "BLOB"),
   ("BIT", "BOOLEAN"), ("BOOLEAN", "BOOLEAN")]

/-- Model of `DMInspector.normalize_type`: `base = raw.split('(')[0].strip().upper()`;
`type_map.get(base, base)`. -/
def normalize_type (raw_type : String) : String :=
  let base_type : String := ⟨pyUpper (pyStrip (beforeParen raw_type.data))⟩
  (lookupMap type_map base_type).getD base_type

end DMInspector

namespace GaussDBInspector

/-- The `type_map` dict of `GaussDBInspector.normalize_type`. -/
def type_map : List (String × String) :=
  [("jsonb", "JSON"), ("bytea", "BLOB"), ("serial", "INTEGER"),
   ("bigserial", "BIGINT"), ("uuid", "UUID"), ("int4", "INTEGER"),
   ("int8", "BIGINT"), ("int2", "SMALLINT"), ("float4", "FLOAT"),
   ("float8", "DOUBLE"), ("bool", "BOOLEAN"),
   ("timestamptz", "TIMESTAMP WITH TIME ZONE"), ("timestamp", "TIMESTAMP"),
   ("clob", "TEXT"), ("blob", "BLOB"), ("number", "NUMERIC"),
   ("raw", "BYTEA"), ("nvarchar2", "NVARCHAR"), ("varchar2", "VARCHAR")]

/-- Model of `GaussDBInspector.normalize_type`: `base = raw.split('(')[0].lower().strip()`;
`type_map.get(base, raw_type.upper())` — note the fallback uppercases the whole
raw string, suffix included. -/
def normalize_type (raw_type : String) : String :=
  let base_type : String := ⟨pyStrip (pyLower (beforeParen raw_type.data))⟩
  (lookupMap type_map base_type).getD ⟨pyUpper raw_type.data⟩

end GaussDBInspector

namespace KingbaseESInspector

/-- The `type_map` dict of `KingbaseESInspector.normalize_type`. -/
def type_map : List (String × String) :=
  [("jsonb", "JSON"), ("bytea", "BLOB"), ("serial", "INTEGER"),
   ("bigserial", "BIGINT"), ("uuid", "UUID"), ("int4", "INTEGER"),
   ("int8", "BIGINT"), ("int2", "SMALLINT"), ("float4", "FLOAT"),
   ("float8", "DOUBLE"), ("bool", "BOOLEAN"),
   ("timestamptz", "TIMESTAMP WITH TIME ZONE"), ("timestamp", "TIMESTAMP"),
   ("clob", "TEXT"), ("blob", "BLOB"), ("number", "NUMERIC"),
   ("raw", "BYTEA"), ("nvarchar2", "NVARCHAR"), ("varchar2", "VARCHAR"),
   ("long", "TEXT"), ("binary_double", "DOUBLE"), ("binary_float", "FLOAT")]

/-- Model of `KingbaseESInspector.normalize_type`, same shape as the GaussDB one. -/
def normalize_type (raw_type : String) : String :=
  let base_type : String := ⟨pyStrip (pyLower (beforeParen raw_type.data))⟩
  (lookupMap type_map base_type).getD ⟨pyUpper raw_type.data⟩

end KingbaseESInspector

/-! ## Schema DSL encoder (alchemy_db_client.format_schema_dsl) -/

/-- One entry of the `columns` list of a table in the schema dict. -/
structure ColumnData where
  name : String
  type : String
  comment : Option String
deriving Repr, DecidableEq

/-- One table value in the schema dict. -/
structure TableData where
  columns : List ColumnData
  comment : Option String
deriving Repr, DecidableEq

/-- The `type_aliases` dict of `format_schema_dsl`. -/
def type_aliases : List (String × String) :=
  [("INTEGER", "i"), ("INT", "i"), ("BIGINT", "i"), ("SMALLINT", "i"),
   ("TINYINT", "i"),
   ("VARCHAR", "s"), ("TEXT", "s"), ("CHAR", "s"),
   ("DATETIME", "dt"), ("TIMESTAMP", "dt"), ("DATE", "dt"),
   ("DECIMAL", "f"), ("NUMERIC", "f"), ("FLOAT", "f"), ("DOUBLE", "f"),
   ("BOOLEAN", "b"), ("BOOL", "b"),
   ("JSON", "j")]

/-- The per-column token of `format_schema_dsl`: parts `[name]`, plus the short
type code when `with_type`, plus `"# <comment>"` when `with_comment` and the
comment is truthy; joined with `":"`. -/
def dsl_column_part (with_type with_comment : Bool) (col : ColumnData) : String :=
  let parts : List String := [col.name]
  let parts : List String :=
    if with_type then
      let raw_type : String := ⟨pyUpper (beforeParen col.type.data)⟩
      parts ++ [(lookupMap type_aliases raw_type).getD ⟨pyLower raw_type.data⟩]
    else parts
  let parts : List String :=
    if with_comment && pyTruthyStrOpt col.comment then
      parts ++ ["# " ++ col.comment.getD ""]
    else parts
  String.intercalate ":" parts

/-- The lines `format_schema_dsl` emits for one table: an optional
`# <table comment>` line, then `T:<name>(<col tokens joined by ", ">)`. -/
def dsl_table_lines (with_type with_comment : Bool) (table_name : String)
    (table_data : TableData) : List String :=
  let column_parts := table_data.columns.map (dsl_column_part with_type with_comment)
  let header := "T:" ++ table_name ++ "(" ++ String.intercalate ", " column_parts ++ ")"
  if with_comment && pyTruthyStrOpt table_data.comment then
    ["# " ++ table_data.comment.getD "", header]
  else
    [header]

/-- Model of `format_schema_dsl(schema, with_type, with_comment)`: the table lines in
dict insertion order, joined by newlines. -/
def format_schema_dsl (schema : List (String × TableData))
    (with_type with_comment : Bool) : String :=
  String.intercalate "\n"
    ((schema.map fun p => dsl_table_lines with_type with_comment p.1 p.2).flatten)

/-! ## Engine cache key (alchemy_db_client.get_engine_key) -/

/-- The `schema_part` of `get_engine_key`: `f"/{schema}" if schema else ""`
(Python truthiness: `None` and `""` both give the empty part). -/
def schema_part_of : Option String → String
  | some s => if s = "" then "" else "/" ++ s
  | none => ""

/-- Model of `get_engine_key`: the f-string rendering of db_type, username, host,
port, database and the schema part, in that order. -/
def get_engine_key (db_type : String) (host : String) (port : Nat)
    (database : String) (username : String) (schema : Option String) : String :=
  db_type ++ "://" ++ username ++ "@" ++ host ++ ":" ++ toString port ++ "/"
    ++ database ++ schema_part_of schema

/-! ## Engine cache lifecycle (alchemy_db_client) -/

/-- Python dict assignment `m[k] = v`: update in place, or append a new entry. -/
def insertMap {β : Type} : List (String × β) → String → β → List (String × β)
  | [], k, v => [(k, v)]
  | (k', v') :: rest, k, v =>
    if k = k' then (k, v) :: rest else (k', v') :: insertMap rest k v

/-- The three module-level dicts of `alchemy_db_client`
(`_ENGINE_CACHE`, `_CONNECTION_COUNTERS`, `_ENGINE_CREATION_TIME`), plus a
fresh-id counter standing for `create_engine` returning a brand-new Engine
object on every call. -/
structure EngineState where
  cache : List (String × Nat)
  counters : List (String × Int)
  creation : List (String × Nat)
  nextId : Nat
deriving Repr, DecidableEq

/-- The state at module import: all three dicts empty. -/
def initEngineState : EngineState := ⟨[], [], [], 0⟩

/-- Model of `get_or_create_engine`: on a cache hit return the cached engine unchanged;
on a miss create a fresh engine and record it in all three dicts. `now` is the
`time.time()` reading at creation. -/
def get_or_create_engine (st : EngineState) (db_type host : String) (port : Nat)
    (database username password : String) (schema : Option String) (now : Nat) :
    EngineState × Nat :=
  let _ := password
  let engine_key := get_engine_key db_type host port database username schema
  match lookupMap st.cache engine_key with
  | some engine => (st, engine)
  | none =>
    let engine := st.nextId
    ({ cache := insertMap st.cache engine_key engine,
       counters := insertMap st.counters engine_key 0,
       creation := insertMap st.creation engine_key now,
       nextId := st.nextId + 1 }, engine)

/-- Model of `log_connection_status`: returns early when the key is not cached; for a
cached key it reads `_CONNECTION_COUNTERS[engine_key]` (a `KeyError`, modelled
as `none`, if absent), incrementing on `"acquire"` and clamping at zero on
`"release"`. -/
def log_connection_status (st : EngineState) (engine_key action : String) :
    Option EngineState :=
  match lookupMap st.cache engine_key with
  | none => some st
  | some _ =>
    match lookupMap st.counters engine_key with
    | none => none
    | some c =>
      if action = "acquire" then
        some { st with counters := insertMap st.counters engine_key (c + 1) }
      else if action = "release" then
        some { st with counters := insertMap st.counters engine_key (max 0 (c - 1)) }
      else
        some st

/-- Model of `dispose_all_engines`: disposes every cached engine and clears all three
dicts (reads of counters/creation use `.get` with defaults, so it never fails). -/
def dispose_all_engines (st : EngineState) : EngineState :=
  { cache := [], counters := [], creation := [], nextId := st.nextId }

/-- One call against the module-level engine state. -/
inductive CacheOp where
  | getOrCreate (db_type host : String) (port : Nat)
      (database username password : String) (schema : Option String) (now : Nat)
  | logStatus (engine_key action : String)
  | disposeAll

/-- Run one `CacheOp`; `none` models an uncaught `KeyError`. -/
def runOp (st : EngineState) : CacheOp → Option EngineState
  | .getOrCreate d h p db u pw s now => some (get_or_create_engine st d h p db u pw s now).1
  | .logStatus k a => log_connection_status st k a
  | .disposeAll => some (dispose_all_engines st)

/-- Run a sequence of `CacheOp`s from a starting state. -/
def runOps (st : EngineState) : List CacheOp → Option EngineState
  | [] => some st
  | op :: ops =>
    match runOp st op with
    | none => none
    | some st' => runOps st' ops

/-- The key-synchronization invariant of the three module-level dicts: every
cached key has a counter entry and a creation-time entry, and no counter is
negative. -/
def CacheInv (st : EngineState) : Prop :=
  (∀ k, lookupMap st.cache k ≠ none →
    lookupMap st.counters k ≠ none ∧ lookupMap st.creation k ≠ none) ∧
  (∀ k c, lookupMap st.counters k = some c → 0 ≤ c)

/-! ## execute_sql session setup (alchemy_db_client.execute_sql) -/

/-- Python `str.lower` as a `String` function. -/
def pyLowerS (s : String) : String := ⟨pyLower s.data⟩

/-- Python `str.upper` as a `String` function. -/
def pyUpperS (s : String) : String := ⟨pyUpper s.data⟩

/-- The statements `execute_sql` issues inside `engine.begin()`, in order: the
schema-setup statement (`SET search_path TO ...` for postgresql/gaussdb,
`ALTER SESSION SET CURRENT_SCHEMA = ...` for oracle/dm, both only when
`schema` is truthy), then the SQL text of the caller. -/
def execute_sql_statements (db_type : String) (schema : Option String)
    (sql : String) : List String :=
  match schema with
  | some s =>
    if (pyLowerS db_type = "postgresql" ∨ pyLowerS db_type = "gaussdb") ∧ s ≠ "" then
      ["SET search_path TO " ++ s, sql]
    else if (pyLowerS db_type = "oracle" ∨ pyLowerS db_type = "dm") ∧ s ≠ "" then
      ["ALTER SESSION SET CURRENT_SCHEMA = " ++ s, sql]
    else [sql]
  | none => [sql]

/-! ## Comment fetchers (inspectors/dm.py, gaussdb.py, kingbase.py) -/

/-- Outcome of `conn.execute(sql, params).scalar()`: a raised exception
(`Except.error`) or the first column of the first row, `none` when the result
has no row or the value is NULL. -/
abbrev QueryOutcome := Except String (Option String)

namespace DMInspector

/-- Model of `DMInspector.get_table_comment`: queries ALL_TAB_COMMENTS with the
uppercased table name inside `try/except`; returns `result or ""` on success
and `""` on any exception. -/
def get_table_comment (query : String → String → QueryOutcome)
    (schema_name table_name : String) : String :=
  match query schema_name (pyUpperS table_name) with
  | .ok result => result.getD ""
  | .error _ => ""

/-- Model of `DMInspector.get_column_comment`: same `try/except` shape over
ALL_COL_COMMENTS with uppercased table and column names. -/
def get_column_comment (query : String → String → String → QueryOutcome)
    (schema_name table_name column_name : String) : String :=
  match query schema_name (pyUpperS table_name) (pyUpperS column_name) with
  | .ok result => result.getD ""
  | .error _ => ""

end DMInspector

namespace GaussDBInspector

/-- Model of `GaussDBInspector.get_table_comment`: no `try/except` — a query exception
propagates to the caller; a missing row yields `""` via `result or ""`. -/
def get_table_comment (query : String → String → QueryOutcome)
    (schema_name table_name : String) : Except String String :=
  match query schema_name table_name with
  | .ok result => .ok (result.getD "")
  | .error e => .error e

/-- Model of `GaussDBInspector.get_column_comment`: same shape, no `try/except`. -/
def get_column_comment (query : String → String → String → QueryOutcome)
    (schema_name table_name column_name : String) : Except String String :=
  match query schema_name table_name column_name with
  | .ok result => .ok (result.getD "")
  | .error e => .error e

end GaussDBInspector

namespace KingbaseESInspector

/-- Model of `KingbaseESInspector.get_table_comment`: identical shape to the GaussDB
one — no `try/except`, exceptions propagate. -/
def get_table_comment (query : String → String → QueryOutcome)
    (schema_name table_name : String) : Except String String :=
  match query schema_name table_name with
  | .ok result => .ok (result.getD "")
  | .error e => .error e

/-- Model of `KingbaseESInspector.get_column_comment`: same shape, no `try/except`. -/
def get_column_comment (query : String → String → String → QueryOutcome)
    (schema_name table_name column_name : String) : Except String String :=
  match query schema_name table_name column_name with
  | .ok result => .ok (result.getD "")
  | .error e => .error e

end KingbaseESInspector

/-! ## Version-string parsers (gaussdb_dialect.py, kingbase_dialect.py)

The two `_get_server_version_info` overrides each try `re.match` with a
pattern of the shape `.*<vendor tail>` under `re.IGNORECASE`. We embed the
exact matching semantics: `re.match` anchors at the start, the leading greedy
`.*` tries the longest prefix first and cannot cross a newline, and the tails
are deterministic once the start position is fixed (each `\s+`/`\d+` is
followed by a character outside its class, and trailing `(?:-\w+)?.*` parts
cannot fail). -/

/-- Case-insensitive ASCII character equality (regex `re.IGNORECASE`). -/
def ciEq (a b : Char) : Bool := a.toLower = b.toLower

/-- Match a literal case-insensitively, returning the rest of the input. -/
def matchLitCI : List Char → List Char → Option (List Char)
  | [], s => some s
  | _ :: _, [] => none
  | p :: ps, c :: cs => if ciEq p c then matchLitCI ps cs else none

/-- Match one literal character case-insensitively. -/
def matchCharCI (p : Char) : List Char → Option (List Char)
  | [] => none
  | c :: cs => if ciEq p c then some cs else none

/-- Regex `\d+` (greedy): the decimal value of the maximal digit run (`int()` of
the capture) and the rest. Also covers `0*(\d+)`, whose total consumption is
the same maximal run and whose capture has the same `int()` value. -/
def takeDigits1 (s : List Char) : Option (Nat × List Char) :=
  let run := s.takeWhile Char.isDigit
  if run.isEmpty then none
  else some (run.foldl (fun n c => 10 * n + (c.toNat - 48)) 0, s.dropWhile Char.isDigit)

/-- Regex `\s+` (greedy): at least one whitespace character. -/
def takeSpaces1 (s : List Char) : Option (List Char) :=
  if (s.takeWhile pyIsSpace).isEmpty then none else some (s.dropWhile pyIsSpace)

/-- Tail of the openGauss pattern after the leading `.*`:
`openGauss\s+(\d+)\.(\d+)\.(\d+)(?:-\w+)?.*` — the optional suffix and the
trailing `.*` always succeed and capture nothing. -/
def openGaussTail (s : List Char) : Option (Nat × Nat × Nat) := do
  let s ← matchLitCI "opengauss".data s
  let s ← takeSpaces1 s
  let (major, s) ← takeDigits1 s
  let s ← matchCharCI '.' s
  let (minor, s) ← takeDigits1 s
  let s ← matchCharCI '.' s
  let (patch, _) ← takeDigits1 s
  pure (major, minor, patch)

/-- Tail of the generic pattern `PostgreSQL\s+(\d+)\.(\d+)(?:\.(\d+))?.*`;
a missing patch group becomes 0 as in the source. -/
def postgresTail (s : List Char) : Option (Nat × Nat × Nat) := do
  let s ← matchLitCI "postgresql".data s
  let s ← takeSpaces1 s
  let (major, s) ← takeDigits1 s
  let s ← matchCharCI '.' s
  let (minor, s) ← takeDigits1 s
  let patch := (((matchCharCI '.' s).bind takeDigits1).map Prod.fst).getD 0
  pure (major, minor, patch)

/-- Regex `V0*(\d+)R0*(\d+)(?:C0*(\d+))?` after `\s+` (IGNORECASE); a missing patch
group becomes 0 as in the source. -/
def kingbaseCore (s : List Char) : Option (Nat × Nat × Nat) := do
  let s ← takeSpaces1 s
  let s ← matchCharCI 'V' s
  let (major, s) ← takeDigits1 s
  let s ← matchCharCI 'R' s
  let (minor, s) ← takeDigits1 s
  let patch := (((matchCharCI 'C' s).bind takeDigits1).map Prod.fst).getD 0
  pure (major, minor, patch)

/-- Tail of `[Kk]ingbase(?:ES)?\s+V0*(\d+)R0*(\d+)(?:C0*(\d+))?.*`: the greedy
optional `ES` is tried first, backtracking to the shorter alternative when the
continuation fails. -/
def kingbaseTail (s : List Char) : Option (Nat × Nat × Nat) :=
  match matchLitCI "kingbase".data s with
  | none => none
  | some s =>
    match matchLitCI "es".data s with
    | some s' =>
      match kingbaseCore s' with
      | some r => some r
      | none => kingbaseCore s
    | none => kingbaseCore s

/-- The leading greedy `.*` of `re.match(".*<tail>", v)`: start positions are
tried latest-first, and `.` does not match a newline, so no position past the
first newline is reachable. -/
def greedyDotStar {α : Type} (f : List Char → Option α) : List Char → Option α
  | [] => f []
  | c :: cs =>
    if c = '\n' then f (c :: cs)
    else
      match greedyDotStar f cs with
      | some r => some r
      | none => f (c :: cs)

namespace GaussDBDialect

/-- Model of `GaussDBDialect._get_server_version_info` as a function of the string
returned by `SELECT version()`: the openGauss pattern, then the generic
PostgreSQL pattern, then the fixed default `(10, 0, 0)`. -/
def get_server_version_info (v : String) : Nat × Nat × Nat :=
  match greedyDotStar openGaussTail v.data with
  | some r => r
  | none =>
    match greedyDotStar postgresTail v.data with
    | some r => r
    | none => (10, 0, 0)

end GaussDBDialect

namespace KingbaseESDialect

/-- Model of `KingbaseESDialect._get_server_version_info` as a function of the raw
version string: the Kingbase pattern, then the generic PostgreSQL pattern,
then the fixed default `(10, 0, 0)`. -/
def get_server_version_info (v : String) : Nat × Nat × Nat :=
  match greedyDotStar kingbaseTail v.data with
  | some r => r
  | none =>
    match greedyDotStar postgresTail v.data with
    | some r => r
    | none => (10, 0, 0)

end KingbaseESDialect

/-! ## Helper lemmas -/

theorem lookupMap_insertMap_self {β : Type} (m : List (String × β)) (k : String) (v : β) :
    lookupMap (insertMap m k v) k = some v := by
  induction m with
  | nil => simp [insertMap, lookupMap]
  | cons head rest ih =>
    obtain ⟨k', v'⟩ := head
    by_cases h : k = k'
    · subst h; simp [insertMap, lookupMap]
    · simp [insertMap, lookupMap, h, ih]

theorem lookupMap_insertMap_ne {β : Type} (m : List (String × β)) (k k' : String) (v : β)
    (h : k' ≠ k) : lookupMap (insertMap m k v) k' = lookupMap m k' := by
  induction m with
  | nil => simp [insertMap, lookupMap, h]
  | cons head rest ih =>
    obtain ⟨k₀, v₀⟩ := head
    by_cases h0 : k = k₀
    · subst h0; simp [insertMap, lookupMap, h]
    · by_cases h1 : k' = k₀ <;> simp [insertMap, lookupMap, h0, h1, ih]

theorem lookupMap_mem {β : Type} (m : List (String × β)) (k : String) (v : β)
    (h : lookupMap m k = some v) : (k, v) ∈ m := by
  induction m with
  | nil => simp [lookupMap] at h
  | cons head rest ih =>
    obtain ⟨k₀, v₀⟩ := head
    by_cases h0 : k = k₀
    · subst h0
      simp [lookupMap] at h
      simp [h]
    · simp [lookupMap, h0] at h
      exact List.mem_cons_of_mem _ (ih h)

theorem string_append_left_cancel (a b c : String) (h : a ++ b = a ++ c) : b = c := by
  have hd : (a ++ b).data = (a ++ c).data := congrArg String.data h
  rw [String.data_append, String.data_append] at hd
  exact String.ext (List.append_cancel_left hd)

theorem beforeParen_of_no_paren (xs : List Char) (h : '(' ∉ xs) : beforeParen xs = xs := by
  induction xs with
  | nil => rfl
  | cons c cs ih =>
    rw [List.mem_cons, not_or] at h
    simp only [beforeParen]
    rw [if_neg (fun hc => h.1 hc.symm), ih h.2]

theorem beforeParen_append_paren (xs ys : List Char) (h : '(' ∉ xs) :
    beforeParen (xs ++ '(' :: ys) = xs := by
  induction xs with
  | nil => simp [beforeParen]
  | cons c cs ih =>
    rw [List.mem_cons, not_or] at h
    simp only [List.cons_append, beforeParen]
    rw [if_neg (fun hc => h.1 hc.symm)]
    exact congrArg (c :: ·) (ih h.2)

theorem data_append_paren (b rest : String) :
    (b ++ "(" ++ rest).data = b.data ++ '(' :: rest.data := by
  rw [String.data_append, String.data_append]
  simp

theorem schema_part_of_inj (s1 s2 : Option String) (hne : s1 ≠ s2)
    (ht : pyTruthyStrOpt s1 || pyTruthyStrOpt s2) :
    schema_part_of s1 ≠ schema_part_of s2 := by
  intro heq
  have slash_ne_empty : ∀ x : String, ("" : String) ≠ "/" ++ x := by
    intro x hx
    have := congrArg String.data hx
    rw [String.data_append] at this
    simp at this
  have slash_cancel : ∀ x y : String, ("/" ++ x : String) = "/" ++ y → x = y :=
    fun x y hxy => string_append_left_cancel "/" x y hxy
  rcases s1 with _ | a <;> rcases s2 with _ | b
  · exact hne rfl
  · simp only [pyTruthyStrOpt, Bool.false_or] at ht
    have hb : ¬(b = "") := by
      intro hb0; rw [hb0] at ht; simp at ht
    rw [schema_part_of, schema_part_of, if_neg hb] at heq
    exact slash_ne_empty b heq
  · simp only [pyTruthyStrOpt, Bool.or_false] at ht
    have ha : ¬(a = "") := by
      intro ha0; rw [ha0] at ht; simp at ht
    rw [schema_part_of, schema_part_of, if_neg ha] at heq
    exact slash_ne_empty a heq.symm
  · by_cases ha : a = "" <;> by_cases hb : b = ""
    · exact hne (by rw [ha, hb])
    · rw [schema_part_of, schema_part_of, if_pos ha, if_neg hb] at heq
      exact slash_ne_empty b heq
    · rw [schema_part_of, schema_part_of, if_neg ha, if_pos hb] at heq
      exact slash_ne_empty a heq.symm
    · rw [schema_part_of, schema_part_of, if_neg ha, if_neg hb] at heq
      exact hne (congrArg some (slash_cancel a b heq))

/-! ## Claim theorems -/

/-- C1, counterexample: the GaussDB adapter method `get_table_comment` has no
`try/except` — when the comment query raises, the exception propagates instead
of the call returning the empty string, contrary to the claim that every
vendor adapter swallows comment-query failures. -/
theorem C1_counterexample :
    GaussDBInspector.get_table_comment (fun _ _ => Except.error "connection lost")
      "public" "users" = Except.error "connection lost" ∧
    GaussDBInspector.get_table_comment (fun _ _ => Except.error "connection lost")
      "public" "users" ≠ Except.ok "" := by
  constructor
  · rfl
  · intro h; simp [GaussDBInspector.get_table_comment] at h

/-- C1, amended: every adapter resolves a missing catalog row to the empty
string; the DM adapter additionally swallows comment-query exceptions and
returns the empty string, while the GaussDB and KingbaseES adapters propagate
query exceptions (only the missing-row case is best-effort there). -/
theorem C1_comment_fetch_amended
    (qt : String → String → QueryOutcome)
    (qc : String → String → String → QueryOutcome)
    (s t c e : String) :
    (qt s (pyUpperS t) = Except.ok none → DMInspector.get_table_comment qt s t = "") ∧
    (qt s (pyUpperS t) = Except.error e → DMInspector.get_table_comment qt s t = "") ∧
    (qc s (pyUpperS t) (pyUpperS c) = Except.ok none →
      DMInspector.get_column_comment qc s t c = "") ∧
    (qc s (pyUpperS t) (pyUpperS c) = Except.error e →
      DMInspector.get_column_comment qc s t c = "") ∧
    (qt s t = Except.ok none → GaussDBInspector.get_table_comment qt s t = Except.ok "") ∧
    (qt s t = Except.error e →
      GaussDBInspector.get_table_comment qt s t = Except.error e) ∧
    (qc s t c = Except.ok none →
      GaussDBInspector.get_column_comment qc s t c = Except.ok "") ∧
    (qc s t c = Except.error e →
      GaussDBInspector.get_column_comment qc s t c = Except.error e) ∧
    (qt s t = Except.ok none →
      KingbaseESInspector.get_table_comment qt s t = Except.ok "") ∧
    (qt s t = Except.error e →
      KingbaseESInspector.get_table_comment qt s t = Except.error e) ∧
    (qc s t c = Except.ok none →
      KingbaseESInspector.get_column_comment qc s t c = Except.ok "") ∧
    (qc s t c = Except.error e →
      KingbaseESInspector.get_column_comment qc s t c = Except.error e) := by
  refine ⟨?_, ?_, ?_, ?_, ?_, ?_, ?_, ?_, ?_, ?_, ?_, ?_⟩ <;> intro h <;>
    simp [DMInspector.get_table_comment, DMInspector.get_column_comment,
      GaussDBInspector.get_table_comment, GaussDBInspector.get_column_comment,
      KingbaseESInspector.get_table_comment, KingbaseESInspector.get_column_comment, h]

/-- C1 witness: concrete instances of the amended theorem — a missing row on
GaussDB and a raised query on DM both yield the empty string. -/
theorem C1_comment_fetch_amended_witness :
    GaussDBInspector.get_table_comment (fun _ _ => Except.ok none) "public" "users"
      = Except.ok "" ∧
    DMInspector.get_table_comment (fun _ _ => Except.error "ORA-00942") "SYSDBA" "users"
      = "" :=
  ⟨(C1_comment_fetch_amended (fun _ _ => Except.ok none) (fun _ _ _ => Except.ok none)
      "public" "users" "c" "e").2.2.2.2.1 rfl,
   (C1_comment_fetch_amended (fun _ _ => Except.error "ORA-00942")
      (fun _ _ _ => Except.ok none) "SYSDBA" "users" "c" "ORA-00942").2.1 rfl⟩

/-- C2, counterexample: for the GaussDB adapter an unmapped raw type with a
parenthesized suffix does not normalize like the bare base keyword — the
fallback uppercases the entire raw string, suffix included. -/
theorem C2_counterexample :
    GaussDBInspector.normalize_type "xml(1)" = "XML(1)" ∧
    GaussDBInspector.normalize_type "xml" = "XML" ∧
    GaussDBInspector.normalize_type "xml(1)" ≠ GaussDBInspector.normalize_type "xml" := by
  refine ⟨by decide, by decide, by decide⟩

/-- C2, amended: `normalize_type` is a pure function for every adapter. For
the DM adapter the claim holds as stated: a parenthesized suffix normalizes
exactly like the bare base keyword, and an unmapped token passes through as
the uppercased stripped base. For the GaussDB and KingbaseES adapters the
suffix equivalence holds when the lowered base token is in the vendor map;
an unmapped raw type passes through as the entire raw string uppercased,
suffix and all. -/
theorem C2_normalize_type_amended :
    (∀ b rest : String, '(' ∉ b.data →
      DMInspector.normalize_type (b ++ "(" ++ rest) = DMInspector.normalize_type b) ∧
    (∀ raw : String,
      lookupMap DMInspector.type_map ⟨pyUpper (pyStrip (beforeParen raw.data))⟩ = none →
      DMInspector.normalize_type raw = ⟨pyUpper (pyStrip (beforeParen raw.data))⟩) ∧
    (∀ b rest can : String, '(' ∉ b.data →
      lookupMap GaussDBInspector.type_map ⟨pyStrip (pyLower b.data)⟩ = some can →
      GaussDBInspector.normalize_type (b ++ "(" ++ rest) = can ∧
      GaussDBInspector.normalize_type b = can) ∧
    (∀ raw : String,
      lookupMap GaussDBInspector.type_map ⟨pyStrip (pyLower (beforeParen raw.data))⟩ = none →
      GaussDBInspector.normalize_type raw = ⟨pyUpper raw.data⟩) ∧
    (∀ b rest can : String, '(' ∉ b.data →
      lookupMap KingbaseESInspector.type_map ⟨pyStrip (pyLower b.data)⟩ = some can →
      KingbaseESInspector.normalize_type (b ++ "(" ++ rest) = can ∧
      KingbaseESInspector.normalize_type b = can) ∧
    (∀ raw : String,
      lookupMap KingbaseESInspector.type_map
        ⟨pyStrip (pyLower (beforeParen raw.data))⟩ = none →
      KingbaseESInspector.normalize_type raw = ⟨pyUpper raw.data⟩) := by
  refine ⟨?_, ?_, ?_, ?_, ?_, ?_⟩
  · intro b rest hb
    unfold DMInspector.normalize_type
    rw [data_append_paren, beforeParen_append_paren _ _ hb, beforeParen_of_no_paren _ hb]
  · intro raw hraw
    simp only [DMInspector.normalize_type, hraw, Option.getD_none]
  · intro b rest can hb hcan
    simp only [GaussDBInspector.normalize_type, data_append_paren,
      beforeParen_append_paren _ _ hb, beforeParen_of_no_paren _ hb, hcan,
      Option.getD_some, and_self]
  · intro raw hraw
    simp only [GaussDBInspector.normalize_type, hraw, Option.getD_none]
  · intro b rest can hb hcan
    simp only [KingbaseESInspector.normalize_type, data_append_paren,
      beforeParen_append_paren _ _ hb, beforeParen_of_no_paren _ hb, hcan,
      Option.getD_some, and_self]
  · intro raw hraw
    simp only [KingbaseESInspector.normalize_type, hraw, Option.getD_none]

/-- C2 witness: concrete instances of the amended theorem. -/
theorem C2_normalize_type_amended_witness :
    DMInspector.normalize_type ("VARCHAR" ++ "(" ++ "255)")
      = DMInspector.normalize_type "VARCHAR" ∧
    GaussDBInspector.normalize_type ("varchar2" ++ "(" ++ "50)") = "VARCHAR" ∧
    KingbaseESInspector.normalize_type ("number" ++ "(" ++ "10,2)") = "NUMERIC" ∧
    KingbaseESInspector.normalize_type "xml(1)" = "XML(1)" :=
  ⟨C2_normalize_type_amended.1 "VARCHAR" "255)" (by decide),
   (C2_normalize_type_amended.2.2.1 "varchar2" "50)" "VARCHAR" (by decide) (by decide)).1,
   (C2_normalize_type_amended.2.2.2.2.1 "number" "10,2)" "NUMERIC" (by decide) (by decide)).1,
   (C2_normalize_type_amended.2.2.2.2.2 "xml(1)" (by decide)).trans (by decide)⟩

/-- C3, counterexample: `get_engine_key` renders a falsy schema as the empty
part, so an identity with `schema=None` and one with `schema=""` — which
differ only in the schema field — collide on the same key, contrary to the
claim that they get distinct keys. -/
theorem C3_counterexample :
    get_engine_key "postgresql" "h" 5432 "db" "u" (some "")
      = get_engine_key "postgresql" "h" 5432 "db" "u" none ∧
    (some "" : Option String) ≠ none := by
  refine ⟨by decide, by decide⟩

/-- C3, amended: the key function is total and deterministic over its fields,
identical identities give identical keys, and identities differing only in
the schema field give distinct keys whenever at least one of the two schema
values is truthy (present and non-empty); the one collision is schema absent
versus schema equal to the empty string, which both render as the empty part. -/
theorem C3_get_engine_key_amended (d h db u : String) (p : Nat) (s1 s2 : Option String)
    (hne : s1 ≠ s2) (ht : pyTruthyStrOpt s1 || pyTruthyStrOpt s2) :
    get_engine_key d h p db u s1 ≠ get_engine_key d h p db u s2 ∧
    get_engine_key d h p db u s1 = get_engine_key d h p db u s1 := by
  refine ⟨?_, rfl⟩
  intro heq
  have heq' : (d ++ "://" ++ u ++ "@" ++ h ++ ":" ++ toString p ++ "/" ++ db)
      ++ schema_part_of s1
      = (d ++ "://" ++ u ++ "@" ++ h ++ ":" ++ toString p ++ "/" ++ db)
      ++ schema_part_of s2 := heq
  exact schema_part_of_inj s1 s2 hne ht (string_append_left_cancel _ _ _ heq')

/-- C3 witness: concrete distinct keys for identities differing only in schema. -/
theorem C3_get_engine_key_amended_witness :
    get_engine_key "postgresql" "h" 5432 "db" "u" (some "s1")
      ≠ get_engine_key "postgresql" "h" 5432 "db" "u" none :=
  (C3_get_engine_key_amended "postgresql" "h" "db" "u" 5432 (some "s1") none
    (by decide) (by decide)).1

theorem get_or_create_state_hit (st : EngineState) (d h : String) (p : Nat)
    (db u pw : String) (s : Option String) (now : Nat) (e : Nat)
    (hc : lookupMap st.cache (get_engine_key d h p db u s) = some e) :
    get_or_create_engine st d h p db u pw s now = (st, e) := by
  simp [get_or_create_engine, hc]

theorem get_or_create_state_miss (st : EngineState) (d h : String) (p : Nat)
    (db u pw : String) (s : Option String) (now : Nat)
    (hc : lookupMap st.cache (get_engine_key d h p db u s) = none) :
    get_or_create_engine st d h p db u pw s now =
      ({ cache := insertMap st.cache (get_engine_key d h p db u s) st.nextId,
         counters := insertMap st.counters (get_engine_key d h p db u s) 0,
         creation := insertMap st.creation (get_engine_key d h p db u s) now,
         nextId := st.nextId + 1 }, st.nextId) := by
  simp [get_or_create_engine, hc]

/-- C4: calling `get_or_create_engine` twice in succession with identical
identity parameters returns the same engine handle on the second call, and
the second call leaves the state untouched — no new engine is created. -/
theorem C4_get_or_create_engine_reuse (st : EngineState) (d h : String) (p : Nat)
    (db u pw : String) (s : Option String) (t t' : Nat) :
    (get_or_create_engine (get_or_create_engine st d h p db u pw s t).1
        d h p db u pw s t').2
      = (get_or_create_engine st d h p db u pw s t).2 ∧
    (get_or_create_engine (get_or_create_engine st d h p db u pw s t).1
        d h p db u pw s t').1
      = (get_or_create_engine st d h p db u pw s t).1 := by
  cases hc : lookupMap st.cache (get_engine_key d h p db u s) with
  | some e =>
    rw [get_or_create_state_hit st d h p db u pw s t e hc,
      get_or_create_state_hit st d h p db u pw s t' e hc]
    exact ⟨rfl, rfl⟩
  | none =>
    rw [get_or_create_state_miss st d h p db u pw s t hc,
      get_or_create_state_hit _ d h p db u pw s t' st.nextId
        (lookupMap_insertMap_self _ _ _)]
    exact ⟨rfl, rfl⟩

/-- C5: after `dispose_all_engines` the cache is empty, a subsequent
`get_or_create_engine` for a previously cached identity creates a brand-new
engine distinct from the disposed one, and a second dispose is a no-op on the
already cleared state. -/
theorem C5_dispose_then_recreate (st : EngineState) (d h : String) (p : Nat)
    (db u pw : String) (s : Option String) (t : Nat) (e : Nat)
    (hb : ∀ kv ∈ st.cache, kv.2 < st.nextId)
    (hc : lookupMap st.cache (get_engine_key d h p db u s) = some e) :
    (dispose_all_engines st).cache = [] ∧
    (get_or_create_engine (dispose_all_engines st) d h p db u pw s t).2 ≠ e ∧
    dispose_all_engines (dispose_all_engines st) = dispose_all_engines st := by
  refine ⟨rfl, ?_, rfl⟩
  have he : e < st.nextId := hb _ (lookupMap_mem _ _ _ hc)
  have hfresh : (get_or_create_engine (dispose_all_engines st) d h p db u pw s t).2
      = st.nextId := by
    rw [get_or_create_state_miss (dispose_all_engines st) d h p db u pw s t rfl]
    rfl
  rw [hfresh]
  omega

theorem CacheInv_after_miss (st : EngineState) (key : String) (now : Nat)
    (hinv : CacheInv st) :
    CacheInv ⟨insertMap st.cache key st.nextId, insertMap st.counters key 0,
      insertMap st.creation key now, st.nextId + 1⟩ := by
  obtain ⟨hsync, hpos⟩ := hinv
  constructor
  · intro k hk
    dsimp only at hk ⊢
    by_cases hkk : k = key
    · subst hkk
      rw [lookupMap_insertMap_self, lookupMap_insertMap_self]
      exact ⟨Option.noConfusion, Option.noConfusion⟩
    · rw [lookupMap_insertMap_ne _ _ _ _ hkk] at hk
      rw [lookupMap_insertMap_ne _ _ _ _ hkk, lookupMap_insertMap_ne _ _ _ _ hkk]
      exact hsync k hk
  · intro k c hkc
    dsimp only at hkc
    by_cases hkk : k = key
    · subst hkk
      rw [lookupMap_insertMap_self] at hkc
      cases hkc
      exact le_refl 0
    · rw [lookupMap_insertMap_ne _ _ _ _ hkk] at hkc
      exact hpos k c hkc

theorem CacheInv_set_counter (st : EngineState) (key : String) (c : Int) (hc : 0 ≤ c)
    (hinv : CacheInv st) :
    CacheInv { st with counters := insertMap st.counters key c } := by
  obtain ⟨hsync, hpos⟩ := hinv
  constructor
  · intro k hk
    dsimp only at hk ⊢
    have hs := hsync k hk
    by_cases hkk : k = key
    · subst hkk
      rw [lookupMap_insertMap_self]
      exact ⟨Option.noConfusion, hs.2⟩
    · rw [lookupMap_insertMap_ne _ _ _ _ hkk]
      exact hs
  · intro k c' hkc
    dsimp only at hkc
    by_cases hkk : k = key
    · subst hkk
      rw [lookupMap_insertMap_self] at hkc
      cases hkc
      exact hc
    · rw [lookupMap_insertMap_ne _ _ _ _ hkk] at hkc
      exact hpos k c' hkc

/-- C5 witness: cache one engine (id 0), dispose everything, re-create the
same identity — the new engine differs from the disposed one. -/
theorem C5_dispose_then_recreate_witness :
    (get_or_create_engine
      (dispose_all_engines
        (get_or_create_engine initEngineState "postgresql" "h" 5432 "db" "u" "pw"
          none 100).1)
      "postgresql" "h" 5432 "db" "u" "pw" none 200).2 ≠ 0 :=
  (C5_dispose_then_recreate
    (get_or_create_engine initEngineState "postgresql" "h" 5432 "db" "u" "pw" none 100).1
    "postgresql" "h" 5432 "db" "u" "pw" none 200 0 (by decide) (by decide)).2.1

/-- C6, counterexample: `execute_sql` issues no schema-selection statement at
all for the kingbase vendor — contrary to the claim, which counts kingbase in
the PostgreSQL family receiving `SET search_path`. -/
theorem C6_counterexample :
    execute_sql_statements "kingbase" (some "s1") "SELECT 1" = ["SELECT 1"] ∧
    "SET search_path TO s1" ∉ execute_sql_statements "kingbase" (some "s1") "SELECT 1" := by
  refine ⟨by decide, by decide⟩

/-- C6, amended: with a non-empty schema, postgresql and gaussdb get
`SET search_path TO <schema>` before the statement of the caller, oracle and dm get
`ALTER SESSION SET CURRENT_SCHEMA = <schema>`, and kingbase gets no
schema-selection statement at all. -/
theorem C6_session_setup_amended (s sql : String) (hs : s ≠ "") :
    execute_sql_statements "postgresql" (some s) sql
      = ["SET search_path TO " ++ s, sql] ∧
    execute_sql_statements "gaussdb" (some s) sql
      = ["SET search_path TO " ++ s, sql] ∧
    execute_sql_statements "oracle" (some s) sql
      = ["ALTER SESSION SET CURRENT_SCHEMA = " ++ s, sql] ∧
    execute_sql_statements "dm" (some s) sql
      = ["ALTER SESSION SET CURRENT_SCHEMA = " ++ s, sql] ∧
    execute_sql_statements "kingbase" (some s) sql = [sql] := by
  refine ⟨?_, ?_, ?_, ?_, ?_⟩
  · simp only [execute_sql_statements]
    rw [if_pos ⟨Or.inl (by decide), hs⟩]
  · simp only [execute_sql_statements]
    rw [if_pos ⟨Or.inr (by decide), hs⟩]
  · simp only [execute_sql_statements]
    rw [if_neg (fun hcon =>
        (by decide : ¬(pyLowerS "oracle" = "postgresql" ∨ pyLowerS "oracle" = "gaussdb"))
          hcon.1),
      if_pos ⟨Or.inl (by decide), hs⟩]
  · simp only [execute_sql_statements]
    rw [if_neg (fun hcon =>
        (by decide : ¬(pyLowerS "dm" = "postgresql" ∨ pyLowerS "dm" = "gaussdb"))
          hcon.1),
      if_pos ⟨Or.inr (by decide), hs⟩]
  · simp only [execute_sql_statements]
    rw [if_neg (fun hcon =>
        (by decide : ¬(pyLowerS "kingbase" = "postgresql" ∨ pyLowerS "kingbase" = "gaussdb"))
          hcon.1),
      if_neg (fun hcon =>
        (by decide : ¬(pyLowerS "kingbase" = "oracle" ∨ pyLowerS "kingbase" = "dm"))
          hcon.1)]

/-- C6 witness: the amended theorem at a concrete schema and statement. -/
theorem C6_session_setup_amended_witness :
    execute_sql_statements "postgresql" (some "myschema") "SELECT 1"
      = ["SET search_path TO myschema", "SELECT 1"] ∧
    execute_sql_statements "dm" (some "myschema") "SELECT 1"
      = ["ALTER SESSION SET CURRENT_SCHEMA = myschema", "SELECT 1"] :=
  ⟨(C6_session_setup_amended "myschema" "SELECT 1" (by decide)).1,
   (C6_session_setup_amended "myschema" "SELECT 1" (by decide)).2.2.2.1⟩

/-- C7, counterexample: the column comment is joined with `":"` like every
other part, so the encoder emits `name:s:# display name`, not the claimed
`name:s # display name`. -/
theorem C7_counterexample :
    format_schema_dsl
      [("users", ⟨[⟨"id", "INTEGER", none⟩, ⟨"name", "VARCHAR", some "display name"⟩],
        some "User accounts"⟩)] true true
      ≠ "# User accounts\nT:users(id:i, name:s # display name)" := by decide

/-- C7, amended: the snapshot encodes to the line `# User accounts`
immediately followed by `T:users(id:i, name:s:# display name)` — the comment
token is prefixed `# ` but joined to the type code with `":"`. -/
theorem C7_format_schema_dsl_comments_amended :
    format_schema_dsl
      [("users", ⟨[⟨"id", "INTEGER", none⟩, ⟨"name", "VARCHAR", some "display name"⟩],
        some "User accounts"⟩)] true true
      = "# User accounts\nT:users(id:i, name:s:# display name)" := by decide

/-- C8: `encode` with types on and comments off yields exactly
`T:users(id:i, name:s)`, and any column whose uppercased base type is not in
the alias table keeps that base type lowercased as its short code. -/
theorem C8_format_schema_dsl_types :
    format_schema_dsl
      [("users", ⟨[⟨"id", "INTEGER", none⟩, ⟨"name", "VARCHAR", none⟩], none⟩)]
      true false = "T:users(id:i, name:s)" ∧
    ∀ n ty : String, lookupMap type_aliases ⟨pyUpper (beforeParen ty.data)⟩ = none →
      dsl_column_part true false ⟨n, ty, none⟩
        = n ++ ":" ++ ⟨pyLower (pyUpper (beforeParen ty.data))⟩ := by
  constructor
  · decide
  · intro n ty hty
    simp only [dsl_column_part, hty, Option.getD_none]
    rfl

/-- C8 witness: the unmapped canonical type UUID keeps its lowercase name. -/
theorem C8_format_schema_dsl_types_witness :
    dsl_column_part true false ⟨"token", "UUID", none⟩ = "token:uuid" :=
  (C8_format_schema_dsl_types.2 "token" "UUID" (by decide)).trans (by decide)

/-- C9, counterexample: containing the marker text is not enough — the
leading `.*` of `re.match` cannot cross a newline, so this string containing
`openGauss 7.0.0-RC1` matches neither pattern and yields the default,
not (7, 0, 0). -/
theorem C9_counterexample :
    GaussDBDialect.get_server_version_info ("x\n" ++ "openGauss 7.0.0-RC1" ++ " build 1")
      = (10, 0, 0) ∧
    ((10, 0, 0) : Nat × Nat × Nat) ≠ (7, 0, 0) := by
  refine ⟨by decide, by decide⟩

/-- C9, amended: the parsers are total; the spec's example strings parse as
stated; both parsers fall back to the generic `PostgreSQL X.Y(.Z)` pattern;
and a string matching no pattern yields (10, 0, 0). A string merely
containing the vendor marker can still fall through to the default (the
leading `.*` cannot cross a newline). -/
theorem C9_version_parsers_amended :
    GaussDBDialect.get_server_version_info
      "(openGauss 7.0.0-RC1 build 10d38387) compiled at 2025-03-21 18:18:33" = (7, 0, 0) ∧
    KingbaseESDialect.get_server_version_info
      "Kingbase V008R006C008B0014 on x86_64-pc-linux-gnu, compiled by gcc" = (8, 6, 8) ∧
    GaussDBDialect.get_server_version_info "PostgreSQL 12.3 on x86_64" = (12, 3, 0) ∧
    KingbaseESDialect.get_server_version_info "PostgreSQL 9.6.2 on x86_64" = (9, 6, 2) ∧
    KingbaseESDialect.get_server_version_info "KingbaseES V8R6 compiled at 2023-01-01"
      = (8, 6, 0) ∧
    GaussDBDialect.get_server_version_info "totally unknown version" = (10, 0, 0) ∧
    KingbaseESDialect.get_server_version_info "totally unknown version" = (10, 0, 0) := by
  refine ⟨by decide, by decide, by decide, by decide, by decide, by decide, by decide⟩

theorem runOp_preserves_CacheInv (st : EngineState) (op : CacheOp)
    (hinv : CacheInv st) : ∃ st', runOp st op = some st' ∧ CacheInv st' := by
  cases op with
  | getOrCreate d h p db u pw s now =>
    refine ⟨(get_or_create_engine st d h p db u pw s now).1, rfl, ?_⟩
    cases hc : lookupMap st.cache (get_engine_key d h p db u s) with
    | some e =>
      rw [get_or_create_state_hit st d h p db u pw s now e hc]
      exact hinv
    | none =>
      rw [get_or_create_state_miss st d h p db u pw s now hc]
      exact CacheInv_after_miss st (get_engine_key d h p db u s) now hinv
  | logStatus k0 a =>
    obtain ⟨hsync, hpos⟩ := hinv
    cases hcache : lookupMap st.cache k0 with
    | none =>
      exact ⟨st, by simp [runOp, log_connection_status, hcache], hsync, hpos⟩
    | some e =>
      obtain ⟨hcnt, _⟩ := hsync k0 (by rw [hcache]; exact fun hx => nomatch hx)
      cases hcounter : lookupMap st.counters k0 with
      | none => exact absurd hcounter hcnt
      | some c =>
        have hc0 : 0 ≤ c := hpos k0 c hcounter
        by_cases hA : a = "acquire"
        · exact ⟨{ st with counters := insertMap st.counters k0 (c + 1) },
            by simp [runOp, log_connection_status, hcache, hcounter, hA],
            CacheInv_set_counter st k0 (c + 1) (by omega) ⟨hsync, hpos⟩⟩
        · by_cases hR : a = "release"
          · exact ⟨{ st with counters := insertMap st.counters k0 (max 0 (c - 1)) },
              by simp [runOp, log_connection_status, hcache, hcounter, hA, hR],
              CacheInv_set_counter st k0 (max 0 (c - 1)) (le_max_left 0 (c - 1))
                ⟨hsync, hpos⟩⟩
          · exact ⟨st, by simp [runOp, log_connection_status, hcache, hcounter, hA, hR],
              hsync, hpos⟩
  | disposeAll =>
    refine ⟨dispose_all_engines st, rfl, ?_, ?_⟩
    · intro k hk
      exact absurd rfl hk
    · intro k c hkc
      exact nomatch hkc

theorem runOps_preserves_CacheInv (ops : List CacheOp) (st : EngineState)
    (hinv : CacheInv st) : ∃ st', runOps st ops = some st' ∧ CacheInv st' := by
  induction ops generalizing st with
  | nil => exact ⟨st, rfl, hinv⟩
  | cons op ops ih =>
    obtain ⟨st1, h1, hinv1⟩ := runOp_preserves_CacheInv st op hinv
    obtain ⟨st2, h2, hinv2⟩ := ih st1 hinv1
    exact ⟨st2, by simp [runOps, h1, h2], hinv2⟩

/-- C10: from the initial empty module state, every sequence of
`get_or_create_engine` / `log_connection_status` / `dispose_all_engines`
calls completes without a `KeyError` and leaves the three dicts
key-synchronized with non-negative counters. -/
theorem C10_cache_maps_synchronized (ops : List CacheOp) :
    ∃ st', runOps initEngineState ops = some st' ∧ CacheInv st' :=
  runOps_preserves_CacheInv ops initEngineState
    ⟨fun _ hk => (hk rfl).elim, fun _ _ hkc => nomatch hkc⟩

end Text2Data
